import Mathlib

/-
Shallow embedding of the Bank of Anthos AI-assistant service
(src/src/ai-assistant/ai_assistant.py) for checking the natural-language
specification against the code.

Conventions of the embedding:
* Python floats are modelled exactly as rationals (`ℚ`); every arithmetic
  operation the analytics code performs (+, -, *, /, min, abs) is exact on
  the inputs that occur, so `ℚ` is a faithful model of the value flow.
* Python dicts that carry a fixed set of keys become structures; keys that
  may be absent become `Option` fields.  Dicts used as accumulating maps
  (spending_by_month, ...) become insertion-ordered association lists, the
  iteration/order semantics of a Python dict.
* HTTP calls made by the service are an environment (`Env`) giving, for each
  upstream endpoint, either a 200 payload, a non-200 status, or a raised
  `requests.RequestException`.
* `float(s)` on amount strings is modelled by `parseDecimal`, which accepts
  exactly the decimal literals (optional sign, digits, optional fraction,
  surrounding whitespace) that occur in this service; a parse failure models
  the `ValueError` branch.
* Python `int(x)` truncates toward zero; `pyInt` mirrors that on `ℚ`.
-/

attribute [local semireducible] Rat.mul Rat.add Rat.sub Rat.inv

/-- Truncation toward zero, the semantics of Python `int()` on a real value. -/
def pyInt (q : ℚ) : Int :=
  if 0 ≤ q then ⌊q⌋ else -⌊-q⌋

/-- Lower-casing of a string, the semantics of Python `str.lower` on ASCII. -/
def pyLower (s : String) : String :=
  String.mk (s.data.map Char.toLower)

/-- Whitespace test, the ASCII whitespace of Python (`\s` of the `re` module
and the characters `str.strip` and `float` ignore). -/
def isReSpace (c : Char) : Bool :=
  c = ' ' || c = '\t' || c = '\n' || c = '\r' || c = '\x0b' || c = '\x0c'

/-- Removal of leading and trailing whitespace, Python `str.strip()`. -/
def pyStripWs (cs : List Char) : List Char :=
  ((cs.dropWhile isReSpace).reverse.dropWhile isReSpace).reverse

/-- First `n` characters of a string, Python `s[:n]` on ASCII text. -/
def strTake (s : String) (n : Nat) : String :=
  String.mk (s.data.take n)

/-- Test for a leading occurrence of `p`, Python `s.startswith(p)`. -/
def strStartsWith (s p : String) : Bool :=
  p.data.isPrefixOf s.data

/-- Replacement of every non-overlapping occurrence of `pat` (non-empty),
left to right, with enough fuel to consume the input: the recursion of
Python `s.replace(pat, rep)`. -/
def replaceListAux (pat rep : List Char) : Nat → List Char → List Char
  | _, [] => []
  | 0, cs => cs
  | n + 1, c :: t =>
      if pat.isPrefixOf (c :: t) then
        rep ++ replaceListAux pat rep n ((c :: t).drop pat.length)
      else c :: replaceListAux pat rep n t

/-- Replacement of every occurrence of a non-empty pattern, the semantics of
Python `s.replace(pat, rep)`. -/
def pyReplace (s pat rep : String) : String :=
  String.mk (replaceListAux pat.data rep.data s.data.length s.data)

/-- Containment of `needle` in `hay` as character lists: Python `needle in hay`. -/
def containsSub (needle : List Char) : List Char → Bool
  | [] => needle.isEmpty
  | c :: t => needle.isPrefixOf (c :: t) || containsSub needle t

/-- Containment test on strings, the semantics of Python `word in text`. -/
def strContains (hay needle : String) : Bool :=
  containsSub needle.data hay.data

/-- Digits to a natural number, most significant first. -/
def digitsToNat (cs : List Char) : Nat :=
  cs.foldl (fun n c => n * 10 + (c.toNat - 48)) 0

/-- Model of Python `float(s)` restricted to plain decimal literals: optional
surrounding whitespace, an optional sign, an integer part and an optional
fractional part, at least one digit overall.  `none` models the `ValueError`
raised on any other input. -/
def parseDecimal (s : String) : Option ℚ :=
  let cs := pyStripWs s.data
  let (sign, rest) : ℚ × List Char :=
    match cs with
    | '-' :: t => (-1, t)
    | '+' :: t => (1, t)
    | t => (1, t)
  let ip := rest.takeWhile Char.isDigit
  let rest2 := rest.drop ip.length
  match rest2 with
  | [] =>
      if ip.isEmpty then none
      else some (sign * digitsToNat ip)
  | '.' :: t =>
      let fp := t.takeWhile Char.isDigit
      if fp.length ≠ t.length then none
      else if ip.isEmpty && fp.isEmpty then none
      else some (sign * ((digitsToNat ip : ℚ) + (digitsToNat fp : ℚ) / 10 ^ fp.length))
  | _ => none

/-- Rendering of a non-negative-or-negative rational number of exact cents with
two decimal places: the value of Python `f"{x:.2f}"` at the `cents / 100.0`
inputs this service formats. -/
def fmt2f (q : ℚ) : String :=
  let sign := if q < 0 then "-" else ""
  let n := (|q| * 100).floor.toNat
  sign ++ toString (n / 100) ++ "." ++ (if n % 100 < 10 then "0" else "") ++ toString (n % 100)

/-- Contact record: one element of the list served by the contacts service and
of the fallback list (`label`, `account_num`). -/
structure Contact where
  label : String
  account_num : String
  deriving DecidableEq, Repr

/-- Balance record stored under `user_data['balance']`. -/
structure Balance where
  balance : ℚ
  currency : String
  deriving DecidableEq, Repr

/-- Transaction dict as consumed by the analytics code.  `amount`,
`description` and `timestamp` are read with defaults, so they are plain
fields; the remaining keys exist only on transactions formatted from the
transaction-history service, so they are `Option` fields (`none` models the
key being absent, as in the fallback demo transactions). -/
structure Tx where
  amount : String := "0"
  description : String := ""
  timestamp : String := ""
  raw_amount : Option Int := none
  is_incoming : Option Bool := none
  from_account : Option String := none
  to_account : Option String := none
  transaction_id : Option String := none
  deriving DecidableEq, Repr

/-- Keyword list for the `Income` category (ai_assistant.py line 295). -/
def incomeWords : List String := ["salary", "deposit", "income", "received from"]

/-- Keyword list for the `Food & Dining` category (line 297). -/
def foodWords : List String := ["grocery", "food", "restaurant", "coffee"]

/-- Keyword list for the `Transportation` category (line 299). -/
def transportWords : List String := ["gas", "fuel", "transport", "uber", "taxi"]

/-- Keyword list for the `Shopping` category (line 301). -/
def shoppingWords : List String := ["shopping", "retail", "amazon", "store"]

/-- Keyword list for the `Housing` category (line 303). -/
def housingWords : List String := ["rent", "mortgage", "utilities", "electric", "water"]

/-- Keyword list for the `Transfers` category (line 305). -/
def transferWords : List String := ["transfer", "sent to", "payment"]

/-- Embedding of `BankingAIAssistant.categorize_transaction`: lower-case the
description, then test the keyword groups in the source's order, first match
winning, defaulting to `Other`. -/
def categorize_transaction (description : String) : String :=
  let dl := pyLower description
  if incomeWords.any (fun w => strContains dl w) then "Income"
  else if foodWords.any (fun w => strContains dl w) then "Food & Dining"
  else if transportWords.any (fun w => strContains dl w) then "Transportation"
  else if shoppingWords.any (fun w => strContains dl w) then "Shopping"
  else if housingWords.any (fun w => strContains dl w) then "Housing"
  else if transferWords.any (fun w => strContains dl w) then "Transfers"
  else "Other"

/-- ASCII uppercase letter test, the `[A-Z]` character class. -/
def isUpperAZ (c : Char) : Bool :=
  'A' ≤ c && c ≤ 'Z'

/-- ASCII lowercase letter test, the `[a-z]` character class. -/
def isLowerAZ (c : Char) : Bool :=
  'a' ≤ c && c ≤ 'z'

/-- Match of `[A-Z][a-z]+` at the head of the input, returning the greedy
capture and the remaining input. -/
def matchName : List Char → Option (List Char × List Char)
  | [] => none
  | c :: cs =>
      if isUpperAZ c then
        let low := cs.takeWhile isLowerAZ
        if low.isEmpty then none else some (c :: low, cs.drop low.length)
      else none

/-- Match of `word\s+([A-Z][a-z]+)` at the head of the input (the greedy `\s+`
needs no backtracking because `[A-Z]` and `\s` are disjoint). -/
def matchWordSpacesName (word : List Char) (cs : List Char) : Option (List Char) :=
  if word.isPrefixOf cs then
    let rest := cs.drop word.length
    let sp := rest.takeWhile isReSpace
    if sp.isEmpty then none
    else
      match matchName (rest.drop sp.length) with
      | some (name, _) => some name
      | none => none
  else none

/-- Leftmost search for `word\s+([A-Z][a-z]+)`, the behaviour of `re.search`
on the first two patterns of `extract_contact_from_description`. -/
def searchWordName (word : List Char) : List Char → Option (List Char)
  | [] => none
  | c :: cs =>
      match matchWordSpacesName word (c :: cs) with
      | some name => some name
      | none => searchWordName word cs

/-- Match of `([A-Z][a-z]+)\s+\(` at the head of the input. -/
def matchNameParen (cs : List Char) : Option (List Char) :=
  match matchName cs with
  | some (name, rest) =>
      let sp := rest.takeWhile isReSpace
      if sp.isEmpty then none
      else
        match rest.drop sp.length with
        | '(' :: _ => some name
        | _ => none
  | none => none

/-- Leftmost search for `([A-Z][a-z]+)\s+\(`, the third pattern of
`extract_contact_from_description`. -/
def searchNameParen : List Char → Option (List Char)
  | [] => none
  | c :: cs =>
      match matchNameParen (c :: cs) with
      | some name => some name
      | none => searchNameParen cs

/-- Embedding of `BankingAIAssistant.extract_contact_from_description`: try
the three regular expressions in order on the original-case description and
return the first capture, `none` modelling Python `None`. -/
def extract_contact_from_description (description : String) : Option String :=
  match searchWordName "from".data description.data with
  | some n => some (String.mk n)
  | none =>
      match searchWordName "to".data description.data with
      | some n => some (String.mk n)
      | none => (searchNameParen description.data).map String.mk

/-- Per-contact accumulator of the contact-analysis loop: `count`,
`total_amount` and the `type` string fixed at first sight. -/
structure ContactStat where
  count : Nat
  total_amount : ℚ
  type : String
  deriving DecidableEq, Repr

/-- Update of an insertion-ordered association list at a key, the semantics of
`m[k] = m.get(k, 0) + v` on a Python dict. -/
def addAssoc (m : List (String × ℚ)) (k : String) (v : ℚ) : List (String × ℚ) :=
  if m.any (fun p => p.1 = k) then
    m.map (fun p => if p.1 = k then (p.1, p.2 + v) else p)
  else m ++ [(k, v)]

/-- Update of the contact-frequency dict for one transaction: insert the
zero record on first sight (fixing `type`), then bump `count` and
`total_amount`, exactly as lines 268-272 of the source. -/
def bumpContact (freq : List (String × ContactStat)) (name : String)
    (is_income : Bool) (amount : ℚ) : List (String × ContactStat) :=
  let freq :=
    if freq.any (fun p => p.1 = name) then freq
    else freq ++ [(name, { count := 0, total_amount := 0,
                           type := if is_income then "income" else "expense" })]
  freq.map (fun p =>
    if p.1 = name then
      (p.1, { p.2 with count := p.2.count + 1, total_amount := p.2.total_amount + |amount| })
    else p)

/-- Accumulator threaded through the transaction loop of
`generate_detailed_analytics`. -/
structure AnState where
  spending_by_month : List (String × ℚ) := []
  income_by_month : List (String × ℚ) := []
  transaction_categories : List (String × ℚ) := []
  total_income : ℚ := 0
  total_spending : ℚ := 0
  contact_frequency : List (String × ContactStat) := []
  deriving DecidableEq, Repr

/-- Amount and income flag of one transaction, the try-block of lines 244-250:
with a `raw_amount` key the amount is `raw_amount / 100.0` and the flag reads
the sign character of the amount string; otherwise the amount is
`float(amount_str)` and the flag is `amount > 0`.  `none` models the
`ValueError` that makes the loop `continue`. -/
def parseAmount (t : Tx) : Option (ℚ × Bool) :=
  match t.raw_amount with
  | some cents => some ((cents : ℚ) / 100, strStartsWith t.amount "+")
  | none =>
      match parseDecimal t.amount with
      | some q => some (q, 0 < q)
      | none => none

/-- Body of the transaction loop of `generate_detailed_analytics` (lines
239-275): monthly buckets and running totals under the `if timestamp:` guard,
then category totals, then contact analysis. -/
def stepTx (st : AnState) (t : Tx) : AnState :=
  match parseAmount t with
  | none => st
  | some (amount, is_income) =>
      let st :=
        if t.timestamp ≠ "" then
          let month := strTake t.timestamp 7
          if is_income then
            { st with income_by_month := addAssoc st.income_by_month month |amount|,
                      total_income := st.total_income + |amount| }
          else
            { st with spending_by_month := addAssoc st.spending_by_month month |amount|,
                      total_spending := st.total_spending + |amount| }
        else st
      let category := categorize_transaction t.description
      let st := { st with
        transaction_categories := addAssoc st.transaction_categories category |amount| }
      match extract_contact_from_description t.description with
      | some name =>
          { st with contact_frequency := bumpContact st.contact_frequency name is_income amount }
      | none => st

/-- Analytics record returned on the non-empty branch of
`generate_detailed_analytics` (the keys of the result dict). -/
structure AnalyticsOk where
  current_balance : ℚ
  total_transactions : Nat
  spending_by_month : List (String × ℚ)
  income_by_month : List (String × ℚ)
  transaction_categories : List (String × ℚ)
  financial_health_score : Int
  contact_analysis : List (String × ContactStat)
  total_income : ℚ
  total_spending : ℚ
  net_change : ℚ
  deriving DecidableEq, Repr

/-- Result of `generate_detailed_analytics`: either the message dict returned
when the transaction list is empty, or the full analytics record. -/
inductive AnalyticsResult where
  | noData (message : String)
  | ok (a : AnalyticsOk)
  deriving DecidableEq, Repr

/-- User-data dict built by `get_user_data`.  The three data fields are
`Option`s because the dict starts with only `username` and acquires the other
keys as the fetches run. -/
structure UserDataRec where
  username : String
  balance : Option Balance := none
  transactions : Option (List Tx) := none
  contacts : Option (List Contact) := none
  deriving DecidableEq, Repr

/-- Embedding of `BankingAIAssistant.generate_detailed_analytics` (lines
214-289): fold the loop body over the transactions, then assemble the result
dict, including the financial-health-score expression of line 287. -/
def generate_detailed_analytics (user_data : UserDataRec) : AnalyticsResult :=
  let transactions := user_data.transactions.getD []
  let balance := (user_data.balance.map Balance.balance).getD 0
  if transactions.isEmpty then
    .noData "No transaction data available for analysis"
  else
    let st := transactions.foldl stepTx {}
    let savings_rate : ℚ :=
      if st.total_income > 0 then (st.total_income - st.total_spending) / st.total_income else 0
    let balance_ratio : ℚ := min (balance / 5000) 1
    let transaction_diversity : ℚ := min ((st.transaction_categories.length : ℚ) / 5) 1
    .ok {
      current_balance := balance,
      total_transactions := transactions.length,
      spending_by_month := st.spending_by_month,
      income_by_month := st.income_by_month,
      transaction_categories := st.transaction_categories,
      financial_health_score :=
        pyInt ((savings_rate * 40 + balance_ratio * 40 + transaction_diversity * 20) * 100),
      contact_analysis := st.contact_frequency,
      total_income := st.total_income,
      total_spending := st.total_spending,
      net_change := st.total_income - st.total_spending }

/-- Health score of an analytics result, when one was produced. -/
def healthScoreOf : AnalyticsResult → Option Int
  | .ok a => some a.financial_health_score
  | .noData _ => none

/-- Spending-by-month map of an analytics result, when one was produced. -/
def spendingByMonthOf : AnalyticsResult → Option (List (String × ℚ))
  | .ok a => some a.spending_by_month
  | .noData _ => none

/-- Income-by-month map of an analytics result, when one was produced. -/
def incomeByMonthOf : AnalyticsResult → Option (List (String × ℚ))
  | .ok a => some a.income_by_month
  | .noData _ => none

/-- Savings rate derived from an analytics record, the guarded expression of
line 283 re-read off the record's own totals. -/
def savingsRateOf (a : AnalyticsOk) : ℚ :=
  if a.total_income > 0 then (a.total_income - a.total_spending) / a.total_income else 0

/-- Outcome of one upstream HTTP GET: a 200 response with its payload, a
non-200 status, or a raised `requests.RequestException` (network error or
timeout). -/
inductive Fetch (α : Type) where
  | success (payload : α)
  | failure
  | netError
  deriving DecidableEq, Repr

/-- Raw transaction dict as served by the transaction-history service, with
the same key-absence defaults the source reads (`tx.get('amount', 0)`,
`tx.get('toAccountNum')`, `tx.get('fromAccountNum', 'Unknown')`, ...). -/
structure RawTx where
  amount : Int := 0
  toAccountNum : Option String := none
  fromAccountNum : Option String := none
  timestamp : String := ""
  transactionId : String := ""
  deriving DecidableEq, Repr

/-- Upstream world of one request: the response of each of the four services
the aggregator may call. -/
structure Env where
  login : Fetch (Option String)
  balance : Fetch Int
  transactions : Fetch (List RawTx)
  contacts : Fetch (List Contact)
  deriving Repr

/-- Fallback balance dict used whenever the balance is not fetched
(1250.75 USD). -/
def fallbackBalance : Balance :=
  { balance := 125075 / 100, currency := "USD" }

/-- Fallback demo transactions used whenever the history is not fetched. -/
def fallbackTransactions : List Tx :=
  [{ amount := "-45.30", description := "Coffee Shop", timestamp := "2024-01-15T10:30:00Z" },
   { amount := "-120.00", description := "Grocery Store", timestamp := "2024-01-14T16:45:00Z" },
   { amount := "2500.00", description := "Salary Deposit", timestamp := "2024-01-13T09:00:00Z" },
   { amount := "-85.50", description := "Gas Station", timestamp := "2024-01-12T18:20:00Z" }]

/-- Fallback demo contacts used whenever the contacts are not fetched. -/
def fallbackContacts : List Contact :=
  [{ label := "Alice Johnson", account_num := "1234567890" },
   { label := "Bob Smith", account_num := "0987654321" }]

/-- User-data record produced by every failure path of `get_user_data`
(the `else` of line 178 and the `except` of line 195 build the same dict). -/
def fallbackUserData (username : String) : UserDataRec :=
  { username,
    balance := some fallbackBalance,
    transactions := some fallbackTransactions,
    contacts := some fallbackContacts }

/-- Formatting of one raw transaction (lines 119-150): dollars from cents, the
direction flag from `toAccountNum`, a contact lookup over the contacts the
user-data dict holds so far, and the derived description and signed amount
string. -/
def formatTransaction (account_id : String) (contacts : List Contact) (tx : RawTx) : Tx :=
  let amount_dollars : ℚ := (tx.amount : ℚ) / 100
  let is_incoming := tx.toAccountNum = some account_id
  let from_account := tx.fromAccountNum.getD "Unknown"
  let to_account := tx.toAccountNum.getD "Unknown"
  let other_account := if is_incoming then from_account else to_account
  let contact_name :=
    (contacts.find? (fun c => c.account_num = other_account)).map Contact.label
  let description :=
    match contact_name with
    | some name => (if is_incoming then "Payment from " else "Payment to ") ++ name
    | none =>
        (if is_incoming then "Transfer from account " else "Transfer to account ") ++ other_account
  { amount := (if is_incoming then "+" else "-") ++ fmt2f amount_dollars,
    description := description,
    timestamp := tx.timestamp,
    raw_amount := some tx.amount,
    is_incoming := some is_incoming,
    from_account := some from_account,
    to_account := some to_account,
    transaction_id := some tx.transactionId }

/-- Balance field produced by a non-raising balance fetch: the 200 payload in
dollars, the placeholder otherwise (lines 100-107). -/
def fetchedBalance : Fetch Int → Balance
  | .success cents => { balance := (cents : ℚ) / 100, currency := "USD" }
  | _ => fallbackBalance

/-- Transactions field produced by a non-raising history fetch: the first 20
raw transactions formatted against an empty contact list — at this point the
user-data dict has no `contacts` key, so `user_data.get('contacts', [])` is
`[]` — or the placeholder list otherwise (lines 110-161). -/
def fetchedTransactions (account_id : String) : Fetch (List RawTx) → List Tx
  | .success raws => (raws.take 20).map (formatTransaction account_id [])
  | _ => fallbackTransactions

/-- Contacts field produced by a non-raising contacts fetch: the 200 payload,
or the placeholder list otherwise (lines 164-177). -/
def fetchedContacts : Fetch (List Contact) → List Contact
  | .success cs => cs
  | _ => fallbackContacts

/-- One step of the balance fetch: `Except.error` models the
`requests.RequestException` that escapes to the outer handler. -/
def fetchBalance : Fetch Int → Except Unit Balance
  | .netError => .error ()
  | f => .ok (fetchedBalance f)

/-- One step of the transaction-history fetch, as `fetchBalance`. -/
def fetchTransactions (account_id : String) : Fetch (List RawTx) → Except Unit (List Tx)
  | .netError => .error ()
  | f => .ok (fetchedTransactions account_id f)

/-- One step of the contacts fetch, as `fetchBalance`. -/
def fetchContacts : Fetch (List Contact) → Except Unit (List Contact)
  | .netError => .error ()
  | f => .ok (fetchedContacts f)

/-- Embedding of `BankingAIAssistant.get_user_data` (lines 58-212).  `decode`
models the JWT-payload extraction of lines 82-92: the `acct` field of the
token when the try-block succeeds, `none` when it falls back to the username.
The single `try/except requests.RequestException` around the whole body means
any `netError` yields the complete fallback dict, discarding fields already
fetched; a non-200 status substitutes the placeholder for its own field
only. -/
def get_user_data (env : Env) (decode : String → Option String)
    (username : String) (auth_token : Option String) : UserDataRec :=
  let needsLogin :=
    match auth_token with
    | none => true
    | some s => s = "" || s = "demo-token"
  let token : Except Unit (Option String) :=
    if needsLogin then
      match env.login with
      | .success t => .ok t
      | .failure => .ok none
      | .netError => .error ()
    else .ok auth_token
  match token with
  | .error _ => fallbackUserData username
  | .ok none => fallbackUserData username
  | .ok (some tok) =>
      if tok = "" then fallbackUserData username
      else
        let account_id := (decode tok).getD username
        match fetchBalance env.balance with
        | .error _ => fallbackUserData username
        | .ok bal =>
            match fetchTransactions account_id env.transactions with
            | .error _ => fallbackUserData username
            | .ok txs =>
                match fetchContacts env.contacts with
                | .error _ => fallbackUserData username
                | .ok cs =>
                    { username,
                      balance := some bal,
                      transactions := some txs,
                      contacts := some cs }

/-- State of the module-level generative model: not configured (no API key),
configured but raising on `generate_content`, or replying with a text. -/
inductive ModelState where
  | unconfigured
  | errors
  | replies (text : String)

/-- Body of `generate_financial_insights`: the insights text and the
analytics payload of the response (`none` models the empty dict `{}` of the
two recovery paths). -/
structure InsightsData where
  insights : String
  analytics : Option AnalyticsResult

/-- Embedding of `BankingAIAssistant.generate_financial_insights` (lines
326-430): the unavailability message when the model is not configured, the
apology with empty analytics when `generate_content` raises, and otherwise
the model text together with the detailed analytics. -/
def generate_financial_insights (m : ModelState) (user_data : UserDataRec) : InsightsData :=
  match m with
  | .unconfigured =>
      { insights := "AI insights are currently unavailable. Please check configuration.",
        analytics := none }
  | .errors =>
      { insights := "I\x27m having trouble analyzing your financial data right now. Please try again later.",
        analytics := none }
  | .replies text =>
      { insights := text, analytics := some (generate_detailed_analytics user_data) }

/-- Response of the `/insights/<username>` route: the status code and the
`username`, `insights` and `analytics` members of the JSON body (the body
always carries all of them). -/
structure InsightsResponse where
  status : Nat
  username : String
  insights : String
  analytics : Option AnalyticsResult

/-- Embedding of the `get_financial_insights` route handler (lines 522-547):
fetch the user data with the hard-coded `demo-token`, generate the insights
and answer 200; every recovery happens inside the callees, so the `except`
branch answering 500 is unreachable. -/
def get_financial_insights (env : Env) (decode : String → Option String)
    (m : ModelState) (username : String) : InsightsResponse :=
  let user_data := get_user_data env decode username (some "demo-token")
  let insights_data := generate_financial_insights m user_data
  { status := 200,
    username := username,
    insights := insights_data.insights,
    analytics := insights_data.analytics }

/-- Methods defined on the class `BankingAIAssistant` (lines 51-503). -/
def bankingAIAssistantMethods : List String :=
  ["__init__", "get_user_data", "generate_detailed_analytics", "categorize_transaction",
   "extract_contact_from_description", "generate_financial_insights", "chat_with_user"]

/-- Response of the `/spending-analysis/<username>` route: 401 from the
missing-token guard, 200 with an analysis (never produced), or the 500 of the
generic exception handler. -/
inductive SpendingResponse where
  | unauthorized
  | analysis (body : String)
  | failed
  deriving DecidableEq, Repr

/-- Status code of a `/spending-analysis` response. -/
def SpendingResponse.status : SpendingResponse → Nat
  | .unauthorized => 401
  | .analysis _ => 200
  | .failed => 500

/-- Embedding of the `get_spending_analysis` route handler (lines 581-600):
strip `Bearer ` from the `Authorization` header, answer 401 when the rest is
empty; otherwise fetch the user data and call
`ai_assistant.analyze_spending_patterns` — an attribute `BankingAIAssistant`
never defines, so the lookup raises `AttributeError` and the generic
`except` answers 500. -/
def get_spending_analysis (env : Env) (decode : String → Option String)
    (username : String) (authHeader : Option String) : SpendingResponse :=
  let auth_token := pyReplace (authHeader.getD "") "Bearer " ""
  if auth_token = "" then .unauthorized
  else
    let _user_data := get_user_data env decode username (some auth_token)
    if bankingAIAssistantMethods.contains "analyze_spending_patterns" then
      .analysis ""
    else .failed

/-- User-data record with a single salary transaction and a 5000 USD balance:
savings rate 1, balance ratio 1, one category. -/
def udSalary5000 : UserDataRec :=
  { username := "testuser",
    balance := some { balance := 5000, currency := "USD" },
    transactions := some [{ amount := "2500.00", description := "Salary Deposit",
                            timestamp := "2024-01-13T09:00:00Z" }],
    contacts := some [] }

/-- Key lemma: the health score stored in any analytics record the code
produces equals the line-287 expression read back off the record's own
fields. -/
theorem health_score_eq (ud : UserDataRec) (a : AnalyticsOk)
    (h : generate_detailed_analytics ud = .ok a) :
    a.financial_health_score =
      pyInt ((savingsRateOf a * 40 + min (a.current_balance / 5000) 1 * 40 +
        min ((a.transaction_categories.length : ℚ) / 5) 1 * 20) * 100) := by
  simp only [generate_detailed_analytics] at h
  split at h
  · simp at h
  · injection h with h2
    subst h2
    rfl

/-- Rearrangement of the score expression into 10000 times the weighted
blend of the specification. -/
theorem pyInt_blend (sr br td : ℚ) :
    pyInt ((sr * 40 + br * 40 + td * 20) * 100) =
      pyInt (10000 * (2 / 5 * sr + 2 / 5 * br + 1 / 5 * td)) :=
  congrArg pyInt (by ring)

/-- C1: the claim says the financial_health_score always lies within
[0, 100]; on a single 2500.00 salary transaction with balance 5000 the code
computes 8400, because line 287 multiplies the already-0-to-100-weighted
blend by a further 100, contradicting the code's own "(0-100)" comment and
the "/100" rendering of the prompt. -/
theorem health_score_not_in_range_on_salary_input :
    healthScoreOf (generate_detailed_analytics udSalary5000) = some 8400 ∧
      ¬((8400 : Int) ≤ 100) := by
  exact ⟨rfl, by decide⟩

/-- C2 counterexample: on the same input the claimed formula
round(100 * (0.4 * 1 + 0.4 * 1 + 0.2 * (1/5))) gives 84, but the code stores
8400. -/
theorem health_score_differs_from_spec_formula :
    healthScoreOf (generate_detailed_analytics udSalary5000) = some 8400 ∧
      (8400 : Int) ≠ 84 := by
  exact ⟨rfl, by decide⟩

/-- C2 (amended): whenever generate_detailed_analytics produces a full
analytics record, the stored health score equals the truncation toward zero
of 10000 * (0.4*savings_rate + 0.4*min(balance/5000,1) +
0.2*min(distinct_categories/5,1)) — one hundred times the claimed value,
truncated rather than rounded. -/
theorem health_score_is_truncated_scaled_blend (ud : UserDataRec) (a : AnalyticsOk)
    (h : generate_detailed_analytics ud = .ok a) :
    a.financial_health_score =
      pyInt (10000 * (2 / 5 * savingsRateOf a + 2 / 5 * min (a.current_balance / 5000) 1 +
        1 / 5 * min ((a.transaction_categories.length : ℚ) / 5) 1)) := by
  rw [health_score_eq ud a h]
  exact pyInt_blend _ _ _

/-- Analytics record the code computes on `udSalary5000`. -/
def analyticsSalary : AnalyticsOk :=
  { current_balance := 5000,
    total_transactions := 1,
    spending_by_month := [],
    income_by_month := [("2024-01", 2500)],
    transaction_categories := [("Income", 2500)],
    financial_health_score := 8400,
    contact_analysis := [],
    total_income := 2500,
    total_spending := 0,
    net_change := 2500 }

/-- Witness for C2 (amended) at the concrete salary input. -/
theorem health_score_is_truncated_scaled_blend_witness :
    analyticsSalary.financial_health_score =
      pyInt (10000 * (2 / 5 * savingsRateOf analyticsSalary +
        2 / 5 * min (analyticsSalary.current_balance / 5000) 1 +
        1 / 5 * min ((analyticsSalary.transaction_categories.length : ℚ) / 5) 1)) :=
  health_score_is_truncated_scaled_blend udSalary5000 analyticsSalary (by rfl)

/-- Ordered category table of `categorize_transaction`, first match winning. -/
def categoryTable : List (String × List String) :=
  [("Income", incomeWords), ("Food & Dining", foodWords), ("Transportation", transportWords),
   ("Shopping", shoppingWords), ("Housing", housingWords), ("Transfers", transferWords)]

/-- Modelled from the spec: the categorizer described as "a fixed ordered
keyword-match ... first matching category wins", as a fold over the ordered
table with default `Other`, to be compared against the code's if-chain. -/
def firstMatchCategory (dl : String) : List (String × List String) → String
  | [] => "Other"
  | (cat, words) :: rest =>
      if words.any (fun w => strContains dl w) then cat else firstMatchCategory dl rest

/-- C4: categorize_transaction is total and deterministic with values in the
fixed seven-category set, agrees with the ordered first-match categorizer
over the fixed table, and any description containing an income keyword
(case-insensitively) maps to Income regardless of other keyword overlaps. -/
theorem categorize_transaction_total_ordered (d : String) :
    categorize_transaction d ∈
      ["Income", "Food & Dining", "Transportation", "Shopping", "Housing", "Transfers",
       "Other"] ∧
    categorize_transaction d = firstMatchCategory (pyLower d) categoryTable ∧
    (incomeWords.any (fun w => strContains (pyLower d) w) = true →
      categorize_transaction d = "Income") := by
  refine ⟨?_, rfl, fun h => ?_⟩
  · simp only [categorize_transaction]
    repeat' split
    all_goals simp
  · simp only [categorize_transaction]
    simp [h]

/-- Witness for C4: a description containing both an income keyword and
transfer/payment keywords is categorized as Income. -/
theorem categorize_transaction_total_ordered_witness :
    incomeWords.any (fun w => strContains (pyLower "Salary Transfer Payment") w) = true ∧
    categorize_transaction "Salary Transfer Payment" = "Income" :=
  ⟨by rfl, (categorize_transaction_total_ordered "Salary Transfer Payment").2.2 (by rfl)⟩

/-- User-data record with two January transactions and one February
transaction, timestamped as in the claim. -/
def udC7 : UserDataRec :=
  { username := "u",
    balance := some { balance := 1000, currency := "USD" },
    transactions := some
      [{ amount := "-10.00", description := "Coffee Shop", timestamp := "2024-01-15T10:30:00Z" },
       { amount := "-20.00", description := "Grocery Store", timestamp := "2024-01-20T16:45:00Z" },
       { amount := "-40.00", description := "Gas Station", timestamp := "2024-02-01T09:00:00Z" }] }

/-- C7: monthly bucketing keys on the first 7 characters of the timestamp:
the 2024-01-15 and 2024-01-20 transactions accumulate into one "2024-01"
bucket (10 + 20 = 30) and the 2024-02-01 transaction falls into a distinct
"2024-02" bucket, the bucket keys being the 7-character prefixes. -/
theorem monthly_buckets_key_on_first_seven_chars :
    spendingByMonthOf (generate_detailed_analytics udC7) =
      some [("2024-01", 30), ("2024-02", 40)] ∧
    incomeByMonthOf (generate_detailed_analytics udC7) = some [] ∧
    strTake "2024-01-15T10:30:00Z" 7 = "2024-01" ∧
    strTake "2024-01-20T16:45:00Z" 7 = "2024-01" ∧
    strTake "2024-02-01T09:00:00Z" 7 = "2024-02" :=
  ⟨rfl, rfl, rfl, rfl, rfl⟩

/-- C8: when the accumulated total income is zero the health score is
computed with savings rate 0 — the division of line 283 sits under the
`total_income > 0` guard, so no division by zero is evaluated. -/
theorem zero_income_savings_rate_zero (ud : UserDataRec) (a : AnalyticsOk)
    (h : generate_detailed_analytics ud = .ok a) (hz : a.total_income = 0) :
    a.financial_health_score =
      pyInt ((0 * 40 + min (a.current_balance / 5000) 1 * 40 +
        min ((a.transaction_categories.length : ℚ) / 5) 1 * 20) * 100) := by
  rw [health_score_eq ud a h]
  have hsr : savingsRateOf a = 0 := by
    unfold savingsRateOf
    rw [hz]
    simp
  rw [hsr]

/-- User-data record with a single spending transaction and zero balance:
total income 0. -/
def udSpendOnly : UserDataRec :=
  { username := "u",
    balance := some { balance := 0, currency := "USD" },
    transactions := some [{ amount := "-50.00", description := "Coffee Shop",
                            timestamp := "2024-01-15T10:30:00Z" }] }

/-- Analytics record the code computes on `udSpendOnly`. -/
def analyticsSpendOnly : AnalyticsOk :=
  { current_balance := 0,
    total_transactions := 1,
    spending_by_month := [("2024-01", 50)],
    income_by_month := [],
    transaction_categories := [("Food & Dining", 50)],
    financial_health_score := 400,
    contact_analysis := [],
    total_income := 0,
    total_spending := 50,
    net_change := -50 }

/-- Witness for C8 at the concrete zero-income input. -/
theorem zero_income_savings_rate_zero_witness :
    analyticsSpendOnly.financial_health_score =
      pyInt ((0 * 40 + min (analyticsSpendOnly.current_balance / 5000) 1 * 40 +
        min ((analyticsSpendOnly.transaction_categories.length : ℚ) / 5) 1 * 20) * 100) :=
  zero_income_savings_rate_zero udSpendOnly analyticsSpendOnly (by rfl) (by rfl)

/-- Totality of the aggregator: on every environment and token the returned
user-data dict carries all three data fields — no path of `get_user_data`
lets a failure escape to the caller. -/
theorem get_user_data_total (env : Env) (decode : String → Option String)
    (username : String) (auth_token : Option String) :
    ∃ b t c, get_user_data env decode username auth_token =
      { username := username, balance := some b, transactions := some t, contacts := some c } := by
  simp only [get_user_data]
  repeat' split
  all_goals exact ⟨_, _, _, rfl⟩

/-- Shared lemma: when the caller supplies a usable token and none of the
three fetches raises, each field of the result is the independent
per-field value of its own fetch. -/
theorem get_user_data_fields (env : Env) (decode : String → Option String)
    (username tok : String) (h1 : tok ≠ "") (h2 : tok ≠ "demo-token")
    (hb : env.balance ≠ Fetch.netError) (ht : env.transactions ≠ Fetch.netError)
    (hc : env.contacts ≠ Fetch.netError) :
    get_user_data env decode username (some tok) =
      { username := username,
        balance := some (fetchedBalance env.balance),
        transactions :=
          some (fetchedTransactions ((decode tok).getD username) env.transactions),
        contacts := some (fetchedContacts env.contacts) } := by
  obtain ⟨lg, bf, tf, cf⟩ := env
  cases bf <;> cases tf <;> cases cf <;>
    first
      | exact absurd rfl hb
      | exact absurd rfl ht
      | exact absurd rfl hc
      | simp [get_user_data, fetchBalance, fetchTransactions, fetchContacts,
              fetchedBalance, fetchedTransactions, fetchedContacts, h1, h2]

/-- Environment where the balance fetch answers 200 with 999999 cents but the
transaction-history fetch raises a network error. -/
def envBalanceThenCrash : Env :=
  { login := .success (some "tokenA"), balance := .success 999999,
    transactions := .netError, contacts := .success [] }

/-- C3 counterexample: with the balance fetched successfully (9999.99 USD), a
network error in the transaction fetch lands in the single outer `except`,
whose `user_data.update` replaces every field — the returned balance is the
1250.75 placeholder, not the fetched value, so a network error does not leave
the other fields' fetched values unchanged. -/
theorem net_error_discards_fetched_balance :
    (get_user_data envBalanceThenCrash (fun _ => none) "testuser" none).balance =
      some fallbackBalance ∧
    fallbackBalance.balance ≠ (999999 : ℚ) / 100 := by
  exact ⟨rfl, by decide⟩

/-- C3 (amended): a non-success status on any one fetch substitutes the
placeholder for that field only — under no network error each field is a
function of its own fetch alone — and the request as a whole never fails; but
a raised network error during any fetch lands in the single outer `except`
and replaces all three fields with placeholders. -/
theorem per_field_fallback_and_no_request_failure (env : Env)
    (decode : String → Option String) (username tok : String)
    (h1 : tok ≠ "") (h2 : tok ≠ "demo-token")
    (hb : env.balance ≠ Fetch.netError) (ht : env.transactions ≠ Fetch.netError)
    (hc : env.contacts ≠ Fetch.netError) :
    (get_user_data env decode username (some tok)).balance =
      some (fetchedBalance env.balance) ∧
    (get_user_data env decode username (some tok)).transactions =
      some (fetchedTransactions ((decode tok).getD username) env.transactions) ∧
    (get_user_data env decode username (some tok)).contacts =
      some (fetchedContacts env.contacts) ∧
    ∀ (env2 : Env) (token2 : Option String), ∃ b t c,
      get_user_data env2 decode username token2 =
        { username := username, balance := some b,
          transactions := some t, contacts := some c } := by
  have hf := get_user_data_fields env decode username tok h1 h2 hb ht hc
  exact ⟨by rw [hf], by rw [hf], by rw [hf],
    fun env2 token2 => get_user_data_total env2 decode username token2⟩

/-- Environment mixing one 200 fetch with non-200 statuses and no exception. -/
def envMixed : Env :=
  { login := .failure, balance := .success 250000,
    transactions := .failure, contacts := .success [] }

/-- Witness for C3 (amended) at a concrete mixed environment. -/
theorem per_field_fallback_and_no_request_failure_witness :
    (get_user_data envMixed (fun _ => none) "alice" (some "tokenC")).balance =
      some (fetchedBalance envMixed.balance) :=
  (per_field_fallback_and_no_request_failure envMixed (fun _ => none) "alice" "tokenC"
    (by decide) (by decide) (by decide) (by decide) (by decide)).1

/-- Environment where every upstream call raises a network error. -/
def envAllNetError : Env :=
  { login := .netError, balance := .netError, transactions := .netError,
    contacts := .netError }

/-- C5: for every environment, model state and username the
`/insights/<username>` handler answers HTTP 200, its body structurally
carrying the insights and analytics members; in particular when every
upstream call raises and the generative model errors, the body carries the
fixed apology text and the empty analytics payload. -/
theorem insights_route_always_200 :
    (∀ (env : Env) (decode : String → Option String) (m : ModelState) (username : String),
      (get_financial_insights env decode m username).status = 200) ∧
    (get_financial_insights envAllNetError (fun _ => none) ModelState.errors "alice").status
      = 200 ∧
    (get_financial_insights envAllNetError (fun _ => none) ModelState.errors "alice").insights
      = "I\x27m having trouble analyzing your financial data right now. Please try again later." ∧
    (get_financial_insights envAllNetError (fun _ => none) ModelState.errors "alice").analytics
      = none :=
  ⟨fun _ _ _ _ => rfl, rfl, rfl, rfl⟩

/-- C6: any request to `/spending-analysis/<username>` whose Authorization
header is non-empty after stripping `Bearer ` reaches the call to
`analyze_spending_patterns`, a name the methods of `BankingAIAssistant` do
not include, so the handler always answers the generic HTTP 500. -/
theorem spending_analysis_with_token_always_500 (env : Env)
    (decode : String → Option String) (username : String) (authHeader : Option String)
    (h : pyReplace (authHeader.getD "") "Bearer " "" ≠ "") :
    get_spending_analysis env decode username authHeader = .failed ∧
    (get_spending_analysis env decode username authHeader).status = 500 ∧
    bankingAIAssistantMethods.contains "analyze_spending_patterns" = false := by
  have h500 : get_spending_analysis env decode username authHeader = .failed := by
    simp only [get_spending_analysis]
    rw [if_neg h]
    rfl
  exact ⟨h500, by rw [h500]; rfl, by decide⟩

/-- Witness for C6 with every upstream down and a bearer token present. -/
theorem spending_analysis_with_token_always_500_witness :
    get_spending_analysis envAllNetError (fun _ => none) "alice"
      (some "Bearer sometoken") = SpendingResponse.failed :=
  (spending_analysis_with_token_always_500 envAllNetError (fun _ => none) "alice"
    (some "Bearer sometoken") (by decide)).1

/-- C9: a request to `/spending-analysis/<username>` whose Authorization
header is absent or empty after stripping `Bearer ` is answered 401, and the
answer is independent of every upstream service (none is called). -/
theorem spending_analysis_missing_token_401 (env env2 : Env)
    (decode decode2 : String → Option String) (username : String)
    (authHeader : Option String)
    (h : pyReplace (authHeader.getD "") "Bearer " "" = "") :
    get_spending_analysis env decode username authHeader = .unauthorized ∧
    (get_spending_analysis env decode username authHeader).status = 401 ∧
    get_spending_analysis env decode username authHeader =
      get_spending_analysis env2 decode2 username authHeader := by
  have hu : ∀ (e : Env) (d : String → Option String),
      get_spending_analysis e d username authHeader = .unauthorized := by
    intro e d
    simp only [get_spending_analysis]
    rw [if_pos h]
  exact ⟨hu env decode, by rw [hu env decode]; rfl, by rw [hu env decode, hu env2 decode2]⟩

/-- Witness for C9 with the header absent. -/
theorem spending_analysis_missing_token_401_witness :
    get_spending_analysis envAllNetError (fun _ => none) "alice" none =
      SpendingResponse.unauthorized :=
  (spending_analysis_missing_token_401 envAllNetError envMixed (fun _ => none)
    (fun _ => none) "alice" none (by decide)).1

/-- C10: every transaction formatted from a 200 transaction-history response
gets a description of the form `Transfer from account N` or
`Transfer to account N`: the contact lookup runs over
`user_data.get('contacts', [])` before the contacts fetch has stored
anything, so it always misses and the `Payment from/to <label>` branch is
unreachable. -/
theorem formatted_descriptions_never_name_contacts (env : Env)
    (decode : String → Option String) (username tok : String) (raws : List RawTx)
    (h1 : tok ≠ "") (h2 : tok ≠ "demo-token")
    (hb : env.balance ≠ Fetch.netError) (ht : env.transactions = Fetch.success raws)
    (hc : env.contacts ≠ Fetch.netError) :
    (get_user_data env decode username (some tok)).transactions =
      some ((raws.take 20).map (formatTransaction ((decode tok).getD username) [])) ∧
    ∀ t ∈ (raws.take 20).map (formatTransaction ((decode tok).getD username) []),
      ∃ acct, t.description = "Transfer from account " ++ acct ∨
        t.description = "Transfer to account " ++ acct := by
  constructor
  · have hf := get_user_data_fields env decode username tok h1 h2 hb
      (by rw [ht]; exact fun hx => Fetch.noConfusion hx) hc
    rw [hf, ht]
    rfl
  · intro t htmem
    obtain ⟨r, _, rfl⟩ := List.mem_map.mp htmem
    by_cases hin : r.toAccountNum = some ((decode tok).getD username)
    · exact ⟨r.fromAccountNum.getD "Unknown", Or.inl (by simp [formatTransaction, hin])⟩
    · exact ⟨r.toAccountNum.getD "Unknown", Or.inr (by simp [formatTransaction, hin])⟩

/-- Raw transaction whose counterparty account is listed among the fetched
contacts. -/
def rawContactTx : RawTx :=
  { amount := 1050, toAccountNum := some "acct1", fromAccountNum := some "999",
    timestamp := "2024-03-01T00:00:00Z", transactionId := "t1" }

/-- Environment answering 200 on every fetch, with a contact whose
account_num matches the raw transaction's counterparty. -/
def envC10 : Env :=
  { login := .failure, balance := .success 100,
    transactions := .success [rawContactTx],
    contacts := .success [{ label := "Alice", account_num := "999" }] }

/-- Witness for C10: the description uses the account number even though a
contact with that very account number is being fetched in the same request. -/
theorem formatted_descriptions_never_name_contacts_witness :
    ∃ acct, (formatTransaction "acct1" [] rawContactTx).description =
        "Transfer from account " ++ acct ∨
      (formatTransaction "acct1" [] rawContactTx).description =
        "Transfer to account " ++ acct :=
  (formatted_descriptions_never_name_contacts envC10 (fun _ => some "acct1") "alice" "tokenD"
    [rawContactTx] (by decide) (by decide) (by decide) rfl (by decide)).2
    (formatTransaction "acct1" [] rawContactTx) (by decide)
